import Mathlib

/-!
Verification of the per-source recording supervisor of `chzzk_record.py`.

The Python source is shallowly embedded below: pure helper functions
(`shorten_filename`, `format_size`, the `SPECIAL_CHARS_REMOVER` regex, the
line-parsing and summary-emission logic of `read_stream`) become executable
Lean functions over `Nat`/`Int`/`ℚ`/`String`, and the stateful body of
`record_stream` becomes an explicit state-transition function over a small
state record together with an event trace.
-/

namespace ChzzkRec

/-! ## UTF-8 byte encoding (models Python `str.encode('utf-8')`) -/

/-- UTF-8 encoding of one Unicode scalar value, as a list of byte values. -/
def utf8Bytes (c : Char) : List Nat :=
  let n := c.toNat
  if n < 0x80 then [n]
  else if n < 0x800 then
    [0xC0 ||| (n >>> 6), 0x80 ||| (n &&& 0x3F)]
  else if n < 0x10000 then
    [0xE0 ||| (n >>> 12), 0x80 ||| ((n >>> 6) &&& 0x3F), 0x80 ||| (n &&& 0x3F)]
  else
    [0xF0 ||| (n >>> 18), 0x80 ||| ((n >>> 12) &&& 0x3F),
     0x80 ||| ((n >>> 6) &&& 0x3F), 0x80 ||| (n &&& 0x3F)]

/-- UTF-8 encoding of a string as a list of byte values;
models Python `s.encode('utf-8')`. -/
def strBytes (s : String) : List Nat := s.data.flatMap utf8Bytes

/-- Models Python `len(s.encode('utf-8'))`. -/
def utf8Len (s : String) : Nat := (strBytes s).length

/-! ## SHA-256 (models Python `hashlib.sha256(...).hexdigest()`) -/

/-- Truncate to a 32-bit word. -/
def w32 (n : Nat) : Nat := n % 4294967296

/-- 32-bit right rotation. -/
def rotr32 (k x : Nat) : Nat := w32 ((x >>> k) ||| (x <<< (32 - k)))

/-- The 64 round constants of FIPS 180-4, in decimal. -/
def sha256K : List Nat :=
  [1116352408, 1899447441, 3049323471, 3921009573,
   961987163, 1508970993, 2453635748, 2870763221,
   3624381080, 310598401, 607225278, 1426881987,
   1925078388, 2162078206, 2614888103, 3248222580,
   3835390401, 4022224774, 264347078, 604807628,
   770255983, 1249150122, 1555081692, 1996064986,
   2554220882, 2821834349, 2952996808, 3210313671,
   3336571891, 3584528711, 113926993, 338241895,
   666307205, 773529912, 1294757372, 1396182291,
   1695183700, 1986661051, 2177026350, 2456956037,
   2730485921, 2820302411, 3259730800, 3345764771,
   3516065817, 3600352804, 4094571909, 275423344,
   430227734, 506948616, 659060556, 883997877,
   958139571, 1322822218, 1537002063, 1747873779,
   1955562222, 2024104815, 2227730452, 2361852424,
   2428436474, 2756734187, 3204031479, 3329325298]

/-- The eight working variables of the SHA-256 state. -/
structure H8 where
  a : Nat
  b : Nat
  c : Nat
  d : Nat
  e : Nat
  f : Nat
  g : Nat
  h : Nat
deriving DecidableEq, Repr

def sha256H0 : H8 :=
  ⟨0x6a09e667, 0xbb67ae85, 0x3c6ef372, 0xa54ff53a,
   0x510e527f, 0x9b05688c, 0x1f83d9ab, 0x5be0cd19⟩

/-- SHA-256 padding: append 0x80, zero bytes to 56 mod 64, then the
bit length as 8 big-endian bytes. -/
def sha256pad (msg : List Nat) : List Nat :=
  let L := msg.length
  let zeros := (119 - L % 64) % 64
  let bitLen := 8 * L
  msg ++ [0x80] ++ List.replicate zeros 0 ++
    [bitLen >>> 56 % 256, bitLen >>> 48 % 256, bitLen >>> 40 % 256,
     bitLen >>> 32 % 256, bitLen >>> 24 % 256, bitLen >>> 16 % 256,
     bitLen >>> 8 % 256, bitLen % 256]

def chunksGo : Nat → List Nat → List (List Nat)
  | 0, _ => []
  | n + 1, l => l.take 64 :: chunksGo n (l.drop 64)

/-- Split a (padded) byte list into 64-byte blocks. -/
def chunks64 (l : List Nat) : List (List Nat) := chunksGo (l.length / 64) l

/-- Four big-endian bytes at a time into 32-bit words. -/
def bytesToWords : List Nat → List Nat
  | b0 :: b1 :: b2 :: b3 :: rest =>
      ((b0 <<< 24) ||| (b1 <<< 16) ||| (b2 <<< 8) ||| b3) :: bytesToWords rest
  | _ => []

def smallSigma0 (x : Nat) : Nat := (rotr32 7 x) ^^^ (rotr32 18 x) ^^^ (x >>> 3)
def smallSigma1 (x : Nat) : Nat := (rotr32 17 x) ^^^ (rotr32 19 x) ^^^ (x >>> 10)
def bigSigma0 (x : Nat) : Nat := (rotr32 2 x) ^^^ (rotr32 13 x) ^^^ (rotr32 22 x)
def bigSigma1 (x : Nat) : Nat := (rotr32 6 x) ^^^ (rotr32 11 x) ^^^ (rotr32 25 x)
def chF (x y z : Nat) : Nat := (x &&& y) ^^^ ((x ^^^ 4294967295) &&& z)
def majF (x y z : Nat) : Nat := (x &&& y) ^^^ (x &&& z) ^^^ (y &&& z)

/-- Message-schedule extension; the accumulator is the reversed schedule
(head is the most recent word). -/
def schedGo : Nat → List Nat → List Nat
  | 0, r => r
  | n + 1, r =>
      schedGo n
        (w32 (smallSigma1 (r.getD 1 0) + r.getD 6 0 +
              smallSigma0 (r.getD 14 0) + r.getD 15 0) :: r)

/-- Full 64-word message schedule from the 16 block words. -/
def sha256schedule (ws : List Nat) : List Nat := (schedGo 48 ws.reverse).reverse

/-- One SHA-256 round. -/
def roundStep (st : H8) (kw : Nat × Nat) : H8 :=
  let t1 := w32 (st.h + bigSigma1 st.e + chF st.e st.f st.g + kw.1 + kw.2)
  let t2 := w32 (bigSigma0 st.a + majF st.a st.b st.c)
  ⟨w32 (t1 + t2), st.a, st.b, st.c, w32 (st.d + t1), st.e, st.f, st.g⟩

/-- Compression of one 64-byte block. -/
def sha256compress (st : H8) (block : List Nat) : H8 :=
  let w := sha256schedule (bytesToWords block)
  let r := (sha256K.zip w).foldl roundStep st
  ⟨w32 (st.a + r.a), w32 (st.b + r.b), w32 (st.c + r.c), w32 (st.d + r.d),
   w32 (st.e + r.e), w32 (st.f + r.f), w32 (st.g + r.g), w32 (st.h + r.h)⟩

/-- SHA-256 of a byte list, as the final eight 32-bit words. -/
def sha256words (msg : List Nat) : H8 :=
  (chunks64 (sha256pad msg)).foldl sha256compress sha256H0

/-- Lowercase hexadecimal digit, as produced by `hexdigest()`. -/
def hexDigit (n : Nat) : Char :=
  if n = 0 then '0' else if n = 1 then '1' else if n = 2 then '2'
  else if n = 3 then '3' else if n = 4 then '4' else if n = 5 then '5'
  else if n = 6 then '6' else if n = 7 then '7' else if n = 8 then '8'
  else if n = 9 then '9' else if n = 10 then 'a' else if n = 11 then 'b'
  else if n = 12 then 'c' else if n = 13 then 'd' else if n = 14 then 'e'
  else 'f'

/-- A 32-bit word as four big-endian bytes. -/
def wordBytes (w : Nat) : List Nat :=
  [w >>> 24 % 256, w >>> 16 % 256, w >>> 8 % 256, w % 256]

/-- One byte as two lowercase hex characters. -/
def byteHexChars (b : Nat) : List Char := [hexDigit (b / 16 % 16), hexDigit (b % 16)]

/-- Models Python `hashlib.sha256(s.encode()).hexdigest()`. -/
def sha256hexdigest (s : String) : String :=
  let hh := sha256words (strBytes s)
  String.mk
    (([hh.a, hh.b, hh.c, hh.d, hh.e, hh.f, hh.g, hh.h].flatMap wordBytes).flatMap
      byteHexChars)

/-! ## `os.path.splitext` (for inputs without path separators) -/

/-- Index of the last `'.'` in the list, if any. -/
def lastIdxOfDot : List Char → Option Nat
  | [] => none
  | c :: rest =>
      match lastIdxOfDot rest with
      | some i => some (i + 1)
      | none => if c = '.' then some 0 else none

/-- Models Python `os.path.splitext` for names without directory
separators: split at the last dot, unless every character before it is
itself a dot (leading dots do not start an extension). -/
def splitext (s : String) : String × String :=
  let cs := s.data
  match lastIdxOfDot cs with
  | none => (s, "")
  | some i =>
      if (cs.take i).any (fun c => c != '.') then
        (String.mk (cs.take i), String.mk (cs.drop i))
      else (s, "")

def MAX_FILENAME_BYTES : Nat := 150

/-- Models `shorten_filename` (lines 135-142): if the UTF-8 byte length
exceeds `MAX_FILENAME_BYTES`, keep the first `MAX_FILENAME_BYTES - 75`
CHARACTERS of the stem (Python slicing `name[:150 - 75]` counts
characters, not bytes) and append an underscore, the first 8 characters
of the SHA-256 hexdigest of the whole name, and the extension. -/
def shorten_filename (filename : String) : String :=
  if MAX_FILENAME_BYTES < utf8Len filename then
    let hashValue := (sha256hexdigest filename).take 8
    let ne := splitext filename
    (ne.1.take (MAX_FILENAME_BYTES - 75)) ++ "_" ++ hashValue ++ ne.2
  else filename

/-! ## The `SPECIAL_CHARS_REMOVER` regex -/

/-- The character class of `SPECIAL_CHARS_REMOVER`
(`[\\/:*?"<>|☀-⛿✀-➿ὠ0-ὤF]`) exactly as
Python's `re` parses it.  `\u` takes exactly four hex digits, so the
last part is the literal U+1F60, the range `'0'`(U+0030)-U+1F64, and the
literal `'F'` - not the emoticon block U+1F600-U+1F64F. -/
def specialChar (c : Char) : Bool :=
  c = '\\' || c = '/' || c = ':' || c = '*' || c = '?' || c = '\"' ||
  c = '<' || c = '>' || c = '|' ||
  (0x2600 ≤ c.toNat && c.toNat ≤ 0x26FF) ||
  (0x2700 ≤ c.toNat && c.toNat ≤ 0x27BF) ||
  c.toNat = 0x1F60 ||
  (0x30 ≤ c.toNat && c.toNat ≤ 0x1F64) ||
  c = 'F'

/-- Models `SPECIAL_CHARS_REMOVER.sub('', s)`: every matching character
is deleted (the pattern matches single characters). -/
def specialCharsSub (s : String) : String :=
  String.mk (s.data.filter fun c => !(specialChar c))

/-! ## Python string helpers -/

/-- ASCII whitespace stripped by Python `str.strip()` (the Unicode
spaces Python also strips are not modelled; no claim depends on them). -/
def isPyWS (c : Char) : Bool :=
  c = ' ' || c = '\t' || c = '\n' || c = '\r' || c = '\x0b' || c = '\x0c'

/-- Models Python `str.strip()`. -/
def stripWS (s : String) : String :=
  String.mk (((s.data.dropWhile isPyWS).reverse.dropWhile isPyWS).reverse)

/-- Models Python `str.rstrip()`. -/
def rstripWS (s : String) : String :=
  String.mk ((s.data.reverse.dropWhile isPyWS).reverse)

/-- Models Python `line_str.split('=')`: split at every `'='`;
`"".split('=') == [""]`. -/
def splitOnEq : List Char → List (List Char)
  | [] => [[]]
  | c :: rest =>
      let r := splitOnEq rest
      if c = '=' then [] :: r
      else
        match r with
        | h :: t => (c :: h) :: t
        | [] => [[c]]

def isAsciiDigit (c : Char) : Bool := '0' ≤ c && c ≤ '9'

def digitsValue (cs : List Char) : Nat :=
  cs.foldl (fun acc c => 10 * acc + (c.toNat - 48)) 0

/-- After an initial digit: digits with single underscores that must sit
between digits. -/
def digitsUnderscoreOk : List Char → Bool
  | [] => true
  | '_' :: c :: rest => isAsciiDigit c && digitsUnderscoreOk (c :: rest)
  | c :: rest => isAsciiDigit c && digitsUnderscoreOk rest

/-- Nonempty ASCII digit run, underscores allowed only between digits. -/
def validDigits : List Char → Bool
  | [] => false
  | c :: rest => isAsciiDigit c && digitsUnderscoreOk rest

/-- Models Python `int(str)`: strip whitespace, optional single sign,
then a nonempty digit run (underscores between digits allowed); `none`
models the `ValueError` that `int` raises otherwise.  (Non-ASCII decimal
digits that Python would also accept are not modelled.) -/
def pyInt (s : String) : Option Int :=
  match (stripWS s).data with
  | '+' :: rest =>
      if validDigits rest then
        some ((digitsValue (rest.filter fun c => c != '_') : Int))
      else none
  | '-' :: rest =>
      if validDigits rest then
        some (-(digitsValue (rest.filter fun c => c != '_') : Int))
      else none
  | rest =>
      if validDigits rest then
        some ((digitsValue (rest.filter fun c => c != '_') : Int))
      else none

/-! ## `format_size` (lines 186-194)

Python's `size_bytes /= 1024` turns the value into a float.  Binary
floating-point division by 1024 only decrements the exponent, so for
inputs below 2^53 every intermediate value is exact and equals
`num / 1024^i`; the embedding carries that exact value as a
numerator/denominator pair.  The comparisons `size_bytes >= 1024`
(i.e. `num ≥ 1024 * den`) agree with the float computation in that
range. -/

def sizeNames : List String := ["B", "KB", "MB", "GB", "TB"]

/-- The `while size_bytes >= 1024 and i < len(size_names) - 1` loop.
The state is `(num, den, i)` with value `num/den` and `den = 1024^i`;
the fuel `sizeNames.length - 1` is an upper bound on the number of
iterations because `i` increases by one per pass and the guard requires
`i < sizeNames.length - 1`. -/
def fsLoopFuel : Nat → Int → Nat → Nat → Int × Nat × Nat
  | 0, num, den, i => (num, den, i)
  | fuel + 1, num, den, i =>
      if 1024 * (den : Int) ≤ num ∧ i < sizeNames.length - 1 then
        fsLoopFuel fuel num (den * 1024) (i + 1)
      else (num, den, i)

def fsLoop (n : Int) : Int × Nat × Nat := fsLoopFuel (sizeNames.length - 1) n 1 0

/-- Nearest integer to `num/den` with ties to even (`den > 0`),
as binary-float formatting rounds. -/
def roundHalfEven (num : Int) (den : Nat) : Int :=
  let d : Int := (den : Int)
  let q := Int.fdiv num d
  let r := num - q * d
  if 2 * r < d then q
  else if d < 2 * r then q + 1
  else if q % 2 = 0 then q else q + 1

/-- Models Python `f"{x:.2f}"` for the exact nonnegative value
`num/den` (the only values reaching it in `format_size`). -/
def twoDecRender (num : Int) (den : Nat) : String :=
  let c := roundHalfEven (100 * num) den
  let m := c.natAbs
  (if c < 0 then "-" else "") ++ toString (m / 100) ++ "." ++
    (if m % 100 < 10 then "0" else "") ++ toString (m % 100)

/-- Models `format_size` (lines 186-194) on the inputs where the Python
code returns normally (see `format_size_py` for the error path).
`sizeNames.getD` stands for `size_names[i]`; the index is provably at
most 4, within range.  The rendered digits use the exact value; CPython
renders the once-rounded double instead, which can differ in the digits
(never in the unit) for inputs of 2^53 bytes and more. -/
def format_size (size_bytes : Int) : String :=
  if size_bytes < 0 then "0 B"
  else
    let r := fsLoop size_bytes
    twoDecRender r.1 r.2.1 ++ " " ++ sizeNames.getD r.2.2 "B"

/-- The least nonnegative `int` dividend for which CPython's true
division by 1024 raises `OverflowError`.  `int / int` rounds the exact
quotient to nearest-even binary64 and raises when the rounded value
reaches 2^1024.  The largest double is 2^1024 - 2^971; the midpoint to
2^1024 is 2^1024 - 2^970, and the tie rounds up (2^1024 has the even
significand), so `n / 1024` overflows exactly when
`n ≥ 1024 * (2^1024 - 2^970) = 2^1034 - 2^980`. -/
def PY_FLOAT_DIV_OVERFLOW : Int := ((2 ^ 1034 - 2 ^ 980 : Nat) : Int)

/-- `format_size` with CPython's error path: for a nonnegative input at
or beyond `PY_FLOAT_DIV_OVERFLOW` the loop's first `size_bytes /= 1024`
(an `int / int` true division) raises `OverflowError`, so the function
raises instead of returning a string.  Only the first division can
overflow: its result is then a finite double, and each later division
by 1024 just lowers the exponent.  (Negative inputs return before the
loop; below the threshold the Python code returns normally and the
unit agrees with `format_size` - for inputs above 2^53 every guard up
to index 4 holds by a margin far exceeding the rounding error.) -/
def format_size_py (size_bytes : Int) : Except String String :=
  if size_bytes < 0 then Except.ok "0 B"
  else if PY_FLOAT_DIV_OVERFLOW ≤ size_bytes then Except.error "OverflowError"
  else Except.ok (format_size size_bytes)

/-! ## `read_stream` line handling (lines 150-184) -/

/-- Python dict assignment `summary[k] = v`: overwrite in place,
keeping the key's position, else append. -/
def upsert : List (String × String) → String → String → List (String × String)
  | [], k, v => [(k, v)]
  | (k0, v0) :: rest, k, v =>
      if k0 = k then (k, v) :: rest else (k0, v0) :: upsert rest k v

/-- Models lines 165-168: `parts = line_str.split('=')`; only when the
split has exactly two parts, `summary[key.strip()] = value.strip()`. -/
def read_stream_parse_line (summary : List (String × String)) (lineStr : String) :
    List (String × String) :=
  match splitOnEq lineStr.data with
  | [k, v] => upsert summary (stripWS (String.mk k)) (stripWS (String.mk v))
  | _ => summary

/-- The stripped text before the first `'='` of a one-`'='` line. -/
def lineKey (s : String) : String :=
  stripWS (String.mk ((splitOnEq s.data).getD 0 []))

/-- The stripped text after the first `'='` of a one-`'='` line. -/
def lineVal (s : String) : String :=
  stripWS (String.mk ((splitOnEq s.data).getD 1 []))

/-- `summary.get(k, d)`. -/
def lookupD (summary : List (String × String)) (k d : String) : String :=
  (List.lookup k summary).getD d

/-- The f-string of lines 174-180. -/
def mkLogMessage (summary : List (String × String)) (totalSizeFormatted : String) :
    String :=
  "Bitrate=" ++ lookupD summary "bitrate" "N/A" ++
  " Total Size=" ++ totalSizeFormatted ++
  " Out Time=" ++ lookupD summary "out_time" "N/A" ++
  " Speed=" ++ lookupD summary "speed" "N/A" ++
  " Progress=" ++ lookupD summary "progress" "N/A"

/-- Models `colorize_log` (lines 144-145). -/
def colorize_log (message : String) (colorCode : Nat) : String :=
  "\x1b[" ++ toString colorCode ++ "m" ++ message ++ "\x1b[0m"

def GREEN : Nat := 32
def RED : Nat := 31

/-- Models lines 170-184, the summary-emission step of one `read_stream`
loop pass.  `elapsed5` is the decided time condition
`current_time - last_log_time >= 5`.  On emission the summary map is
cleared; `Except.error` models the uncaught `ValueError` of
`int(total_size)`.  `Option String` is the emitted log line, if any. -/
def read_stream_emit (channelName streamType : String)
    (summary : List (String × String)) (elapsed5 : Bool) :
    Except String (Option String × List (String × String)) :=
  if (List.lookup "progress" summary).isSome && elapsed5 then
    match pyInt (lookupD summary "total_size" "0") with
    | none => Except.error "ValueError"
    | some n =>
        Except.ok (some (channelName ++ " " ++ streamType ++ ": " ++
          colorize_log (mkLogMessage summary (format_size n)) GREEN), [])
  else Except.ok (none, summary)

/-! ## `record_stream` (lines 196-293) as a state machine

One pass of the `while True` loop becomes a function from the
supervisor's state and an environment (which of the fallible steps
succeed) to the next state plus a trace of events, read off the source
line by line. -/

/-- Observable events of one `record_stream` cycle, in source order. -/
inductive Ev where
  | sleepDelay
  | logSkip
  | logStart
  | killStream
  | killFfmpeg
  | createPipe
  | spawnStream
  | closeWriteEnd
  | spawnFfmpeg
  | closeReadEnd
  | waitFfmpeg
  | logStop
  | waitStream
  | logError
  | sleepCooldown
deriving DecidableEq, BEq, Repr

/-- Supervisor-owned state: the `recording_started` flag, whether the
previously launched processes are still running (`returncode is None`),
and whether the supervisor's own copies of the current pipe's two ends
are open. -/
structure SupState where
  recording_started : Bool
  streamLive : Bool
  ffmpegLive : Bool
  ownerWriteOpen : Bool
  ownerReadOpen : Bool
deriving DecidableEq, Repr

/-- Which fallible steps of one cycle succeed: `preOk` covers the
cookie load and `mkdir` (lines 222-231; `get_live_info` catches its own
errors), and the two spawn flags cover the two
`create_subprocess_exec` calls. -/
structure IterEnv where
  preOk : Bool
  spawnStreamOk : Bool
  spawnFfmpegOk : Bool
deriving DecidableEq, Repr

/-- The `except` handler, lines 282-286: log the exception, and log a
stop plus reset the flag only when `recording_started` is true. -/
def record_stream_except (s : SupState) : SupState × List Ev :=
  if s.recording_started then
    ({ s with recording_started := false }, [Ev.logError, Ev.logStop])
  else (s, [Ev.logError])

/-- One pass of the `while True` loop, lines 217-293.  The string
`stream_url` is a nonempty f-string, so the `if stream_url` branch is
always the one taken. -/
def record_stream_iter (s : SupState) (e : IterEnv) : SupState × List Ev :=
  if e.preOk then
    -- lines 233-235: start is logged and the flag set BEFORE any launch
    let startEvs := if s.recording_started then ([] : List Ev) else [Ev.logStart]
    let s1 : SupState := { s with recording_started := true }
    -- lines 237-245: kill and await any still-running previous processes
    let killStreamEvs := if s1.streamLive then [Ev.killStream] else []
    let s2 : SupState := { s1 with streamLive := false }
    let killFfmpegEvs := if s2.ffmpegLive then [Ev.killFfmpeg] else []
    let s3 : SupState := { s2 with ffmpegLive := false }
    -- line 247: rpipe, wpipe = os.pipe()
    let s4 : SupState := { s3 with ownerWriteOpen := true, ownerReadOpen := true }
    let pre := startEvs ++ killStreamEvs ++ killFfmpegEvs ++ [Ev.createPipe]
    if e.spawnStreamOk then
      -- lines 249-260: fetcher spawned, then os.close(wpipe)
      let s5 : SupState := { s4 with streamLive := true, ownerWriteOpen := false }
      if e.spawnFfmpegOk then
        -- lines 262-267: transcoder spawned, then os.close(rpipe)
        let s6 : SupState := { s5 with ffmpegLive := true, ownerReadOpen := false }
        -- line 272: gather(stdout_task, stderr_task, ffmpeg_process.wait())
        let s7 : SupState := { s6 with ffmpegLive := false }
        -- lines 274-277
        let stopEvs := if s7.recording_started then [Ev.logStop] else []
        let s8 : SupState := { s7 with recording_started := false }
        -- lines 279-280: await stream_process.wait() - no kill here
        let s9 : SupState := { s8 with streamLive := false }
        (s9, pre ++ [Ev.spawnStream, Ev.closeWriteEnd, Ev.spawnFfmpeg,
                     Ev.closeReadEnd, Ev.waitFfmpeg] ++ stopEvs ++
             [Ev.waitStream, Ev.sleepCooldown])
      else
        -- transcoder spawn raised: rpipe stays open, fetcher stays live
        let he := record_stream_except s5
        (he.1, pre ++ [Ev.spawnStream, Ev.closeWriteEnd] ++ he.2 ++
               [Ev.sleepCooldown])
    else
      -- fetcher spawn raised: neither pipe end gets closed
      let he := record_stream_except s4
      (he.1, pre ++ he.2 ++ [Ev.sleepCooldown])
  else
    let he := record_stream_except s
    (he.1, he.2 ++ [Ev.sleepCooldown])

/-- Lines 206-211: the initial delay, then the active check; the
returned Bool is true when the coroutine returns right there.  `active`
models `channel.get("active", "on")`. -/
def record_stream_prelude (active : Option String) : List Ev × Bool :=
  if active.getD "on" = "off" then ([Ev.sleepDelay, Ev.logSkip], true)
  else ([Ev.sleepDelay], false)

/-- `record_stream` up to and including the first pass of the loop (or
the early return): prelude, then - only if the prelude did not return -
one `record_stream_iter`. -/
def record_stream_first_cycle (active : Option String) (s : SupState) (e : IterEnv) :
    List Ev × Bool × SupState :=
  let p := record_stream_prelude active
  if p.2 then (p.1, true, s)
  else (p.1 ++ (record_stream_iter s e).2, false, (record_stream_iter s e).1)

/-! ## Trace helpers -/

/-- `a` occurs strictly before the first occurrence of `b`. -/
def occursBefore (a b : Ev) (l : List Ev) : Bool :=
  (l.takeWhile (fun x => x != b)).contains a

/-- Some occurrence of `a` is immediately followed by `b`. -/
def immediatelyFollows (b a : Ev) (l : List Ev) : Bool :=
  (l.zip l.tail).contains (a, b)

/-- The part of the trace strictly after the first occurrence of `a`. -/
def afterEv (a : Ev) (l : List Ev) : List Ev :=
  (l.dropWhile (fun x => x != a)).tail

/-! ## Helper lemmas -/

theorem splitOnEq_length (cs : List Char) :
    (splitOnEq cs).length = cs.count '=' + 1 := by
  induction cs with
  | nil => rfl
  | cons c rest ih =>
      by_cases hc : c = '='
      · subst hc
        simp [splitOnEq, List.count_cons, ih]
      · rcases hr : splitOnEq rest with _ | ⟨h0, t0⟩
        · rw [hr] at ih; simp at ih
        · rw [hr] at ih
          simp [splitOnEq, hc, hr, List.count_cons] at ih ⊢
          omega

theorem lookup_upsert (l : List (String × String)) (k v : String) :
    List.lookup k (upsert l k v) = some v := by
  induction l with
  | nil => simp [upsert, List.lookup]
  | cons p rest ih =>
      obtain ⟨k0, v0⟩ := p
      by_cases h : k0 = k
      · simp [upsert, h, List.lookup]
      · have hne : (k == k0) = false := by
          simp only [beq_eq_false_iff_ne, ne_eq]
          exact fun hk => h hk.symm
        simp [upsert, h, List.lookup, hne, ih]

theorem fsLoopFuel_succ (fuel : Nat) (num : Int) (den i : Nat) :
    fsLoopFuel (fuel + 1) num den i =
      if 1024 * (den : Int) ≤ num ∧ i < sizeNames.length - 1 then
        fsLoopFuel fuel num (den * 1024) (i + 1)
      else (num, den, i) := rfl

theorem fsLoopFuel_step (fuel : Nat) (num : Int) (den i : Nat)
    (hg : 1024 * (den : Int) ≤ num) (hi : i < sizeNames.length - 1) :
    fsLoopFuel (fuel + 1) num den i = fsLoopFuel fuel num (den * 1024) (i + 1) := by
  rw [fsLoopFuel_succ, if_pos ⟨hg, hi⟩]

theorem fsLoopFuel_idx_le (fuel : Nat) (num : Int) (den i : Nat) :
    (fsLoopFuel fuel num den i).2.2 ≤ max i (sizeNames.length - 1) := by
  induction fuel generalizing den i with
  | zero => exact le_max_left _ _
  | succ fuel ih =>
      by_cases hc : 1024 * (den : Int) ≤ num ∧ i < sizeNames.length - 1
      · rw [fsLoopFuel_step fuel num den i hc.1 hc.2]
        have h2 := hc.2
        have := ih (den * 1024) (i + 1)
        omega
      · rw [fsLoopFuel_succ, if_neg hc]
        exact le_max_left _ _

theorem fsLoop_tb (num : Int) (h : (1024 : Int) ^ 4 ≤ num) :
    fsLoop num = (num, 1024 ^ 4, 4) := by
  have h4 : (1099511627776 : Int) ≤ num := by
    calc (1099511627776 : Int) = 1024 ^ 4 := by norm_num
    _ ≤ num := h
  show fsLoopFuel (3 + 1) num 1 0 = (num, 1024 ^ 4, 4)
  rw [fsLoopFuel_step 3 num 1 0 (by push_cast; omega) (by norm_num [sizeNames])]
  show fsLoopFuel (2 + 1) num 1024 1 = (num, 1024 ^ 4, 4)
  rw [fsLoopFuel_step 2 num 1024 1 (by push_cast; omega) (by norm_num [sizeNames])]
  show fsLoopFuel (1 + 1) num 1048576 2 = (num, 1024 ^ 4, 4)
  rw [fsLoopFuel_step 1 num 1048576 2 (by push_cast; omega) (by norm_num [sizeNames])]
  show fsLoopFuel (0 + 1) num 1073741824 3 = (num, 1024 ^ 4, 4)
  rw [fsLoopFuel_step 0 num 1073741824 3 (by push_cast; omega) (by norm_num [sizeNames])]
  rfl

/-! ## Claims -/

/-- C1 (counterexample): when the transcoder spawn fails, the
supervisor's copy of the pipe's read end remains open at the end of the
attempt, and when the fetcher spawn fails both owned ends remain open -
so it is false that on every execution path no owned pipe file
descriptor remains open once both launches have been attempted. -/
theorem pipe_close_counterexample :
    (record_stream_iter ⟨false, false, false, false, false⟩
        ⟨true, true, false⟩).1.ownerReadOpen = true ∧
    (record_stream_iter ⟨false, false, false, false, false⟩
        ⟨true, false, true⟩).1.ownerWriteOpen = true ∧
    (record_stream_iter ⟨false, false, false, false, false⟩
        ⟨true, false, true⟩).1.ownerReadOpen = true := by decide

/-- C1 (amended): on the successful path the owner closes the write end
immediately after the fetcher launch and the read end immediately after
the transcoder launch, leaving no owned end open; but if the fetcher
spawn fails both owned ends stay open, and if the transcoder spawn
fails the owned read end stays open. -/
theorem pipe_close_discipline (s : SupState) (e : IterEnv)
    (hp : e.preOk = true) :
    (e.spawnStreamOk = true → e.spawnFfmpegOk = true →
       (record_stream_iter s e).1.ownerWriteOpen = false ∧
       (record_stream_iter s e).1.ownerReadOpen = false ∧
       immediatelyFollows Ev.closeWriteEnd Ev.spawnStream
         (record_stream_iter s e).2 = true ∧
       immediatelyFollows Ev.closeReadEnd Ev.spawnFfmpeg
         (record_stream_iter s e).2 = true) ∧
    (e.spawnStreamOk = false →
       (record_stream_iter s e).1.ownerWriteOpen = true ∧
       (record_stream_iter s e).1.ownerReadOpen = true) ∧
    (e.spawnStreamOk = true → e.spawnFfmpegOk = false →
       (record_stream_iter s e).1.ownerWriteOpen = false ∧
       (record_stream_iter s e).1.ownerReadOpen = true) := by
  obtain ⟨a, b, c, d, f⟩ := s
  obtain ⟨p, q, r⟩ := e
  revert a b c d f p q r
  decide

/-- Witness for the C1 amended theorem at a concrete state and
environment. -/
theorem pipe_close_discipline_witness :
    (record_stream_iter ⟨false, false, false, false, false⟩
        ⟨true, true, true⟩).1.ownerWriteOpen = false ∧
    (record_stream_iter ⟨false, false, false, false, false⟩
        ⟨true, true, true⟩).1.ownerReadOpen = false :=
  let h := (pipe_close_discipline ⟨false, false, false, false, false⟩
    ⟨true, true, true⟩ rfl).1 rfl rfl
  ⟨h.1, h.2.1⟩

/-- C2: in any cycle that launches the fetcher, a previous still-running
fetcher (resp. transcoder) process is killed and awaited strictly
before the launch. -/
theorem kill_before_spawn (s : SupState) (e : IterEnv)
    (hs : (record_stream_iter s e).2.contains Ev.spawnStream = true) :
    (s.streamLive = true →
       occursBefore Ev.killStream Ev.spawnStream (record_stream_iter s e).2 = true) ∧
    (s.ffmpegLive = true →
       occursBefore Ev.killFfmpeg Ev.spawnStream (record_stream_iter s e).2 = true) := by
  obtain ⟨a, b, c, d, f⟩ := s
  obtain ⟨p, q, r⟩ := e
  revert a b c d f p q r
  decide

/-- Witness for C2 at a state with both previous processes live. -/
theorem kill_before_spawn_witness :
    occursBefore Ev.killStream Ev.spawnStream
      (record_stream_iter ⟨true, true, true, false, false⟩ ⟨true, true, true⟩).2 = true ∧
    occursBefore Ev.killFfmpeg Ev.spawnStream
      (record_stream_iter ⟨true, true, true, false, false⟩ ⟨true, true, true⟩).2 = true :=
  ⟨(kill_before_spawn ⟨true, true, true, false, false⟩ ⟨true, true, true⟩
      (by decide)).1 rfl,
   (kill_before_spawn ⟨true, true, true, false, false⟩ ⟨true, true, true⟩
      (by decide)).2 rfl⟩

/-- C3 (counterexample): in a fresh cycle whose fetcher spawn fails, a
start event IS logged (the flag is set before the launch is attempted),
refuting that no start event is logged for a failed launch. -/
theorem launch_fail_marks_start_counterexample :
    (record_stream_iter ⟨false, false, false, false, false⟩
        ⟨true, false, true⟩).2.contains Ev.logStart = true := by decide

/-- C3 (amended): if either spawn fails the error is caught inside the
attempt (an error log event appears), the cycle still ends with the
cooldown sleep so a next cycle is attempted, and the final
`recording_started` is false - but the attempt IS first marked as
started: from a not-started state the trace logs a start event before
the failure and a stop event after it. -/
theorem launch_fail_recovery (s : SupState) (e : IterEnv)
    (hp : e.preOk = true)
    (hf : e.spawnStreamOk = false ∨ e.spawnFfmpegOk = false) :
    (record_stream_iter s e).1.recording_started = false ∧
    (record_stream_iter s e).2.contains Ev.logError = true ∧
    (record_stream_iter s e).2.getLast? = some Ev.sleepCooldown ∧
    (s.recording_started = false →
       (record_stream_iter s e).2.contains Ev.logStart = true ∧
       (record_stream_iter s e).2.contains Ev.logStop = true) := by
  obtain ⟨a, b, c, d, f⟩ := s
  obtain ⟨p, q, r⟩ := e
  revert a b c d f p q r
  decide

/-- Witness for the C3 amended theorem: fetcher spawn fails in a fresh
cycle. -/
theorem launch_fail_recovery_witness :
    (record_stream_iter ⟨false, false, false, false, false⟩
        ⟨true, false, true⟩).1.recording_started = false ∧
    (record_stream_iter ⟨false, false, false, false, false⟩
        ⟨true, false, true⟩).2.getLast? = some Ev.sleepCooldown :=
  let h := launch_fail_recovery ⟨false, false, false, false, false⟩
    ⟨true, false, true⟩ rfl (Or.inl rfl)
  ⟨h.1, h.2.2.1⟩

/-- C4 (counterexample): on a fresh successful cycle the trace waits for
the transcoder and then waits for the fetcher, but contains no kill of
the fetcher at all - refuting that the fetcher is forcibly terminated
after the transcoder exits. -/
theorem wait_no_fetcher_kill_counterexample :
    (record_stream_iter ⟨false, false, false, false, false⟩
        ⟨true, true, true⟩).2.contains Ev.waitFfmpeg = true ∧
    (record_stream_iter ⟨false, false, false, false, false⟩
        ⟨true, true, true⟩).2.contains Ev.waitStream = true ∧
    (record_stream_iter ⟨false, false, false, false, false⟩
        ⟨true, true, true⟩).2.contains Ev.killStream = false := by decide

/-- C4 (amended): on a successful cycle the wait on the transcoder
completes strictly before the wait on the fetcher, the fetcher is only
waited on - never killed - after the transcoder's exit, and both
processes have exited (both exit codes observed) at the end of the
cycle. -/
theorem wait_pipeline (s : SupState) (e : IterEnv)
    (hp : e.preOk = true) (h1 : e.spawnStreamOk = true)
    (h2 : e.spawnFfmpegOk = true) :
    occursBefore Ev.waitFfmpeg Ev.waitStream (record_stream_iter s e).2 = true ∧
    (afterEv Ev.waitFfmpeg (record_stream_iter s e).2).contains Ev.killStream = false ∧
    (afterEv Ev.waitFfmpeg (record_stream_iter s e).2).contains Ev.waitStream = true ∧
    (record_stream_iter s e).1.streamLive = false ∧
    (record_stream_iter s e).1.ffmpegLive = false := by
  obtain ⟨a, b, c, d, f⟩ := s
  obtain ⟨p, q, r⟩ := e
  revert a b c d f p q r
  decide

/-- Witness for the C4 amended theorem on a fresh successful cycle. -/
theorem wait_pipeline_witness :
    occursBefore Ev.waitFfmpeg Ev.waitStream
      (record_stream_iter ⟨false, false, false, false, false⟩ ⟨true, true, true⟩).2 = true ∧
    (afterEv Ev.waitFfmpeg
      (record_stream_iter ⟨false, false, false, false, false⟩ ⟨true, true, true⟩).2).contains
        Ev.killStream = false :=
  let h := wait_pipeline ⟨false, false, false, false, false⟩ ⟨true, true, true⟩
    rfl rfl rfl
  ⟨h.1, h.2.1⟩

/-- C5 (counterexample): for a source whose active flag is "off" the
coroutine logs the skip and RETURNS (second component `true`); it never
sleeps the cooldown and never re-checks - refuting that the supervisor
does not return and still sleeps the cooldown. -/
theorem inactive_returns_counterexample :
    record_stream_first_cycle (some "off") ⟨false, false, false, false, false⟩
        ⟨true, true, true⟩ =
      ([Ev.sleepDelay, Ev.logSkip], true, ⟨false, false, false, false, false⟩) ∧
    (record_stream_first_cycle (some "off") ⟨false, false, false, false, false⟩
        ⟨true, true, true⟩).1.contains Ev.sleepCooldown = false := by decide

/-- C5 (amended): for a source whose active flag is "off" the supervisor
logs a skip and returns immediately after the initial delay, without
starting a pipeline, without sleeping the cooldown, and without
touching the state; the check happens once, before the loop. -/
theorem inactive_skips (a : Option String) (s : SupState) (e : IterEnv)
    (h : a.getD "on" = "off") :
    (record_stream_first_cycle a s e).2.1 = true ∧
    (record_stream_first_cycle a s e).1 = [Ev.sleepDelay, Ev.logSkip] ∧
    (record_stream_first_cycle a s e).1.contains Ev.spawnStream = false ∧
    (record_stream_first_cycle a s e).1.contains Ev.sleepCooldown = false ∧
    (record_stream_first_cycle a s e).2.2 = s := by
  simp [record_stream_first_cycle, record_stream_prelude, h]
  decide

/-- Witness for the C5 amended theorem. -/
theorem inactive_skips_witness :
    (record_stream_first_cycle (some "off") ⟨false, false, false, false, false⟩
        ⟨true, true, true⟩).2.1 = true :=
  (inactive_skips (some "off") ⟨false, false, false, false, false⟩
    ⟨true, true, true⟩ rfl).1

set_option maxRecDepth 4000000 in
/-- C6: the 60-character Korean stem plus ".ts" is 183 UTF-8 bytes, over
the 150-byte cap, yet `shorten_filename` returns a 192-byte name -
`name[:150 - 75]` truncates to 75 CHARACTERS, so the result of
"shortening" exceeds the byte cap (and is even longer than the input). -/
theorem shorten_filename_exceeds_cap :
    utf8Len (String.mk (List.replicate 60 '가') ++ ".ts") = 183 ∧
    MAX_FILENAME_BYTES < utf8Len (String.mk (List.replicate 60 '가') ++ ".ts") ∧
    utf8Len (shorten_filename (String.mk (List.replicate 60 '가') ++ ".ts")) = 192 ∧
    MAX_FILENAME_BYTES <
      utf8Len (shorten_filename (String.mk (List.replicate 60 '가') ++ ".ts")) := by
  decide

/-- C7: the sanitizer does remove every path-unsafe character, but the
emoticon U+1F600 survives it (`ὠ0` is parsed by `re` as `ὠ`
followed by `0`, not as the emoticon block), while ordinary letters and
digits are wrongly removed by the accidental range U+0030-U+1F64. -/
theorem sanitizer_misses_emoji :
    specialCharsSub "😀" = "😀" ∧
    specialCharsSub "<>:\"/\\|?*" = "" ∧
    specialCharsSub "Abc123" = "" := by decide

/-- C8 (counterexample): an unparsable `total_size` (ffmpeg emits
`total_size=N/A`) makes the summary emission raise `ValueError` from
`int(total_size)` instead of rendering "0 B". -/
theorem emit_unparsable_counterexample :
    read_stream_emit "ch" "stdout"
        [("progress", "continue"), ("total_size", "N/A")] true =
      Except.error "ValueError" := rfl

/-- C8 (amended): when a summary is emitted, the total size is rendered
through `format_size` (1024-based scaling, two decimals) and the
summary map is cleared; a NEGATIVE total size renders as "0 B", but an
UNPARSABLE one raises `ValueError` out of the aggregator instead of
rendering "0 B". -/
theorem emit_spec (ch st : String) (summary : List (String × String))
    (hp : (List.lookup "progress" summary).isSome = true) :
    (pyInt (lookupD summary "total_size" "0") = none →
       read_stream_emit ch st summary true = Except.error "ValueError") ∧
    (∀ n : Int, pyInt (lookupD summary "total_size" "0") = some n →
       read_stream_emit ch st summary true =
         Except.ok (some (ch ++ " " ++ st ++ ": " ++
           colorize_log (mkLogMessage summary (format_size n)) GREEN), []) ∧
       (n < 0 → format_size n = "0 B")) := by
  constructor
  · intro h
    simp [read_stream_emit, hp, h]
  · intro n h
    constructor
    · simp [read_stream_emit, hp, h]
    · intro hn
      simp [format_size, hn]

/-- Witness for the C8 amended theorem: a negative total size renders
as "0 B" inside an emitted line, without an error. -/
theorem emit_spec_witness :
    read_stream_emit "ch" "stdout"
        [("progress", "continue"), ("total_size", "-5")] true =
      Except.ok (some ("ch" ++ " " ++ "stdout" ++ ": " ++
        colorize_log (mkLogMessage [("progress", "continue"), ("total_size", "-5")]
          (format_size (-5))) GREEN), []) ∧
    format_size (-5) = "0 B" :=
  let h := (emit_spec "ch" "stdout" [("progress", "continue"), ("total_size", "-5")]
    (by decide)).2 (-5) (by decide)
  ⟨h.1, h.2 (by decide)⟩

/-- C9: a line with exactly one `'='` is upserted into the summary map
(split at the `'='`, both parts stripped, prior value for the key
overwritten), and every other line leaves the summary map unchanged,
with no error possible. -/
theorem parse_line_spec (summary : List (String × String)) (s : String) :
    (s.data.count '=' = 1 →
       read_stream_parse_line summary s =
         upsert summary (lineKey s) (lineVal s) ∧
       List.lookup (lineKey s) (read_stream_parse_line summary s) =
         some (lineVal s)) ∧
    (s.data.count '=' ≠ 1 → read_stream_parse_line summary s = summary) := by
  constructor
  · intro h1
    have hlen : (splitOnEq s.data).length = 2 := by
      rw [splitOnEq_length, h1]
    obtain ⟨k, v, hkv⟩ := List.length_eq_two.mp hlen
    constructor
    · simp [read_stream_parse_line, hkv, lineKey, lineVal]
    · simp [read_stream_parse_line, hkv, lineKey, lineVal, lookup_upsert]
  · intro h1
    have hlen : (splitOnEq s.data).length ≠ 2 := by
      rw [splitOnEq_length]; omega
    rcases hsp : splitOnEq s.data with _ | ⟨x, _ | ⟨y, _ | ⟨z, t⟩⟩⟩
    · simp [read_stream_parse_line, hsp]
    · simp [read_stream_parse_line, hsp]
    · rw [hsp] at hlen; simp at hlen
    · simp [read_stream_parse_line, hsp]

/-- Witness for C9: a one-`'='` line overwrites the prior value; a line
without `'='` leaves the map unchanged. -/
theorem parse_line_spec_witness :
    List.lookup (lineKey "total_size=10")
        (read_stream_parse_line [("total_size", "5")] "total_size=10") =
      some (lineVal "total_size=10") ∧
    read_stream_parse_line [("a", "b")] "progress" = [("a", "b")] :=
  ⟨((parse_line_spec [("total_size", "5")] "total_size=10").1 (by decide)).2,
   (parse_line_spec [("a", "b")] "progress").2 (by decide)⟩

set_option maxRecDepth 1000000 in
/-- C10 (counterexample): `10^400` is at least `1024^4` bytes, yet
`format_size` does not return a "TB" string there: CPython's first
`size_bytes /= 1024` is an `int / int` true division whose rounded
result exceeds the binary64 range, raising `OverflowError` - refuting
"for every integer input, `format_size` terminates and returns a
string". -/
theorem format_size_overflow_counterexample :
    (1024 : Int) ^ 4 ≤ ((10 ^ 400 : Nat) : Int) ∧
    format_size_py ((10 ^ 400 : Nat) : Int) = Except.error "OverflowError" :=
  ⟨by decide, rfl⟩

/-- C10 (amended): for every integer input below the float-overflow
threshold `2^1034 - 2^980`, `format_size` returns a string whose unit
suffix is one of B/KB/MB/GB/TB - the unit index never exceeds the unit
table - and for inputs from `1024^4` up to that threshold the loop
stops at index 4 ("TB") carrying the exact value `n/1024^4` as
`(n, 1024^4)`, the numeric part growing with `n` instead of the index
overflowing the table; for inputs at or beyond the threshold,
`format_size` raises `OverflowError` instead of returning. -/
theorem format_size_unit_safe_below_overflow (n : Int) :
    (n < PY_FLOAT_DIV_OVERFLOW →
       (fsLoop n).2.2 < sizeNames.length ∧
       (∃ numeric : String, ∃ i : Nat, i < sizeNames.length ∧
          format_size_py n = Except.ok (numeric ++ " " ++ sizeNames.getD i "B")) ∧
       ((1024 : Int) ^ 4 ≤ n →
          fsLoop n = (n, 1024 ^ 4, 4) ∧
          sizeNames.getD (fsLoop n).2.2 "B" = "TB")) ∧
    (PY_FLOAT_DIV_OVERFLOW ≤ n →
       format_size_py n = Except.error "OverflowError") := by
  constructor
  · intro h
    have hb : (fsLoop n).2.2 < sizeNames.length := by
      have h1 := fsLoopFuel_idx_le (sizeNames.length - 1) n 1 0
      have hL : sizeNames.length = 5 := by norm_num [sizeNames]
      rw [hL] at h1
      show (fsLoopFuel (sizeNames.length - 1) n 1 0).2.2 < sizeNames.length
      rw [hL]
      omega
    refine ⟨hb, ?_, ?_⟩
    · by_cases hn : n < 0
      · refine ⟨"0", 0, by norm_num [sizeNames], ?_⟩
        simp [format_size_py, hn]
        decide
      · have hno : ¬ PY_FLOAT_DIV_OVERFLOW ≤ n := not_le.mpr h
        refine ⟨twoDecRender (fsLoop n).1 (fsLoop n).2.1, (fsLoop n).2.2, hb, ?_⟩
        simp [format_size_py, hn, hno, format_size]
    · intro h4
      have ht := fsLoop_tb n h4
      refine ⟨ht, ?_⟩
      rw [ht]
      rfl
  · intro h
    have hn : ¬ n < 0 := by
      have hpos : (0 : Int) ≤ PY_FLOAT_DIV_OVERFLOW := Int.natCast_nonneg _
      omega
    simp [format_size_py, hn, h]

set_option maxRecDepth 1000000 in
/-- Witness for the C10 amended theorem: at 1024^5 bytes (below the
threshold) the unit is "TB", and at 10^400 bytes the model raises
`OverflowError`. -/
theorem format_size_unit_safe_below_overflow_witness :
    sizeNames.getD (fsLoop ((1024 : Int) ^ 5)).2.2 "B" = "TB" ∧
    format_size_py ((10 ^ 400 : Nat) : Int) = Except.error "OverflowError" :=
  ⟨((((format_size_unit_safe_below_overflow (1024 ^ 5)).1 (by decide)).2.2)
      (by decide)).2,
   (format_size_unit_safe_below_overflow ((10 ^ 400 : Nat) : Int)).2 (by decide)⟩

end ChzzkRec
